import Mathlib

/-!
Verification of the autoChess arena core (src/arena) against its
natural-language specification.

Shallow embedding notes:
* Times are naturals, measured in milliseconds (Django datetimes become
  millisecond timestamps; `timedelta(seconds=60)` becomes `60000`).
* Django model rows become Lean structures; `None`/nullable columns become
  `Option`; text-choice enums become inductive types.
* The external UCI engine process (Stockfish) is not part of the repository:
  its observable behaviour (`best_move`, `apply_and_inspect`,
  `inspect_position` from services/engine.py, each of which may raise
  `UciError`) is modelled as an oracle record `Env`; `none` models a raised
  `UciError`.
* A Python exception that escapes `tick`'s transaction rolls the database
  back to the pre-tick state; this is modelled by the `TickRes.exn` result
  carrying the original game state.
-/

namespace AutoChess

/-- Side of the board, models arena.models.Side. -/
inductive Side where
  | WHITE
  | BLACK
deriving Repr, DecidableEq

/-- Game lifecycle status, models arena.models.GameStatus. -/
inductive GameStatus where
  | CONFIGURED
  | RUNNING
  | PAUSED
  | FINISHED
deriving Repr, DecidableEq

/-- Why a game ended, models arena.models.TerminationReason.  The model
field `Game.termination_reason` is an `Option` of this type; `none` models
the empty-string default of the Django CharField. -/
inductive TerminationReason where
  | CHECKMATE
  | STALEMATE
  | REPETITION
  | FIFTY_MOVE
  | INSUFFICIENT
  | RESIGN
  | MAX_PLIES
  | UNKNOWN
deriving Repr, DecidableEq

/-- Mover kind for one side, models arena.models.EngineType. -/
inductive EngineType where
  | STOCKFISH
  | PYCHESS
  | PLAYER
deriving Repr, DecidableEq

/-- Strength mode, models arena.models.StrengthMode. -/
inductive StrengthMode where
  | SKILL
  | ELO
deriving Repr, DecidableEq

/-- Per-side mover configuration, models arena.models.EngineConfig
(the `uci_options` JSON map is omitted: it is only forwarded verbatim to the
external Stockfish process, which the oracle models). -/
structure EngineConfig where
  engine_type : EngineType
  strength_mode : StrengthMode
  strength_value : Nat
  movetime_ms : Nat
deriving Repr, DecidableEq

/-- One recorded half-move, models arena.models.Move (`created_at` omitted;
it is never read by the code under verification). -/
structure MoveRec where
  ply_index : Nat
  uci : String
  san : String
  fen_after : String
  position_key_after : String
  is_check : Bool
deriving Repr, DecidableEq

/-- Aggregate game state, models arena.models.Game together with its owned
Move rows (`ui_selected_from`, `ui_selected_to`, `created_at`, `updated_at`
and `started_at` are omitted: the verified code paths never read them). -/
structure Game where
  status : GameStatus
  fen : String
  side_to_move : String
  ply_count : Nat
  move_interval_ms : Nat
  preview_ms : Nat
  next_action_at : Option Nat
  last_move_uci : String
  last_move_san : String
  pending_move_uci : String
  pending_move_set_at : Option Nat
  tick_lock : Bool
  tick_lock_at : Option Nat
  result : String
  termination_reason : Option TerminationReason
  finished_at : Option Nat
  initial_position_key : String
  white_engine : Option EngineConfig
  black_engine : Option EngineConfig
  moves : List MoveRec
deriving Repr, DecidableEq

/-- Parsed reply of the engine `d` command, models arena.services.uci.DisplayInfo. -/
structure DisplayInfo where
  fen : Option String
  key : Option String
  checkers_raw : Option String
deriving Repr, DecidableEq

/-- Reply of `go movetime`, models arena.services.uci.UciBestMove
(the ponder field is never read by the scheduler and is omitted). -/
structure UciBestMove where
  move : String
deriving Repr, DecidableEq

/-- Result record of one tick call, models arena.services.game_loop.TickOutcome. -/
structure TickOutcome where
  advanced : Bool
  message : String
deriving Repr, DecidableEq

/-- Oracle for everything outside the repository that `tick` consults:
Django settings values and the three engine entry points of
services/engine.py.  A `none` oracle answer models a raised `UciError`. -/
structure Env where
  default_movetime_ms : Nat
  max_plies : Nat
  best_move : String → EngineConfig → Option UciBestMove
  apply_and_inspect : String → String → Option DisplayInfo
  inspect_position : String → Option DisplayInfo

/-! ## services/fen.py -/

/-- Helper of pySplit: accumulate the current word (reversed) while
scanning; whitespace runs end words, empty pieces are dropped. -/
def splitWsAux (cs : List Char) (cur : List Char) : List String :=
  match cs with
  | [] => if cur = [] then [] else [String.mk cur.reverse]
  | c :: rest =>
    if c.isWhitespace then
      (if cur = [] then splitWsAux rest []
       else String.mk cur.reverse :: splitWsAux rest [])
    else splitWsAux rest (c :: cur)

/-- Python `str.split()` with no separator: split on whitespace runs,
dropping empty pieces. -/
def pySplit (s : String) : List String :=
  splitWsAux s.data []

/-- Drop leading whitespace characters. -/
def dropLeadingWs (cs : List Char) : List Char :=
  match cs with
  | [] => []
  | c :: rest => if c.isWhitespace then dropLeadingWs rest else c :: rest

/-- Python `str.strip()` with no argument: remove leading and trailing
whitespace. -/
def pyStrip (s : String) : String :=
  String.mk ((dropLeadingWs (dropLeadingWs s.data.reverse).reverse))

/-- Digits of a numeral to a natural number. -/
def digitsToNat (l : List Char) : Nat :=
  l.foldl (fun a c => a * 10 + (c.toNat - 48)) 0

/-- Python `int(str)`: optional surrounding whitespace, optional sign, then
digits; `none` models a raised ValueError.  (Underscore digit separators of
Python 3.6+ are not modelled; no FEN field uses them.) -/
def pyInt (s : String) : Option Int :=
  let cs := (pyStrip s).toList
  match cs with
  | [] => none
  | c :: rest =>
    if c = '-' then
      if rest ≠ [] ∧ rest.all Char.isDigit then some (-(digitsToNat rest : Int)) else none
    else if c = '+' then
      if rest ≠ [] ∧ rest.all Char.isDigit then some (digitsToNat rest : Int) else none
    else
      if cs.all Char.isDigit then some (digitsToNat cs : Int) else none

/-- Models fen.side_to_move_from_fen; `none` models a raised ValueError. -/
def side_to_move_from_fen (fen : String) : Option String :=
  let parts := pySplit fen
  match parts.get? 1 with
  | none => none
  | some p => if p = "w" ∨ p = "b" then some p else none

/-- Models fen.halfmove_clock_from_fen; `none` models a raised
ValueError (fewer than five FEN fields, or a non-numeric clock field). -/
def halfmove_clock_from_fen (fen : String) : Option Int :=
  let parts := pySplit fen
  match parts.get? 4 with
  | none => none
  | some p => pyInt p

/-- Core of fen.is_insufficient_material, over the piece-placement field. -/
def insufficient_core (placement : String) : Bool :=
  let pieces := placement.toList.filter (fun c => c.isAlpha)
  let minors := pieces.filter (fun c => !(c = 'K' || c = 'k'))
  if minors.isEmpty then
    true
  else if minors.any (fun c => c = 'P' || c = 'p' || c = 'R' || c = 'r' || c = 'Q' || c = 'q') then
    false
  else if minors.length = 1 &&
      (minors.headD 'K' = 'B' || minors.headD 'K' = 'b' ||
       minors.headD 'K' = 'N' || minors.headD 'K' = 'n') then
    true
  else if minors.all (fun c => c = 'B' || c = 'b') &&
      decide ((minors.filter (fun c => c = 'B')).length ≤ 1) &&
      decide ((minors.filter (fun c => c = 'b')).length ≤ 1) then
    true
  else
    false

/-- Models fen.is_insufficient_material; `none` models the IndexError raised
by `fen.split()[0]` when the FEN has no fields at all. -/
def is_insufficient_material (fen : String) : Option Bool :=
  match pySplit fen with
  | [] => none
  | placement :: _ => some (insufficient_core placement)

/-! ## services/engine.py: depth selection -/

/-- Base depth of engine.depth selection before the movetime bonus:
the strength step table. -/
def base_depth (cfg : EngineConfig) : Nat :=
  match cfg.strength_mode with
  | StrengthMode.SKILL =>
    let s := cfg.strength_value
    if s ≤ 3 then 1
    else if s ≤ 6 then 2
    else if s ≤ 10 then 3
    else if s ≤ 14 then 4
    else if s ≤ 17 then 5
    else 6
  | StrengthMode.ELO =>
    let e := cfg.strength_value
    if e < 1100 then 2
    else if e < 1500 then 3
    else if e < 1900 then 4
    else if e < 2300 then 5
    else 6

/-- Effective movetime of engine depth selection:
`int(getattr(cfg, "movetime_ms", 150) or 150)` (zero falls back to 150). -/
def effective_movetime (cfg : EngineConfig) : Nat :=
  if cfg.movetime_ms = 0 then 150 else cfg.movetime_ms

/-- Models engine depth selection from strength (`engine.py` lines 288-324). -/
def depth_from_strength (cfg : EngineConfig) : Nat :=
  let d := base_depth cfg
  let mt := effective_movetime cfg
  let d := if 500 ≤ mt then d + 1 else d
  let d := if 1000 ≤ mt then d + 1 else d
  max 1 (min 7 d)

/-! ## services/game_loop.py -/

/-- Default EngineConfig created for White by ensure_engine_rows. -/
def default_white_config (env : Env) : EngineConfig :=
  { engine_type := EngineType.PYCHESS
    strength_mode := StrengthMode.SKILL
    strength_value := 10
    movetime_ms := env.default_movetime_ms }

/-- Default EngineConfig created for Black by ensure_engine_rows. -/
def default_black_config (env : Env) : EngineConfig :=
  { engine_type := EngineType.STOCKFISH
    strength_mode := StrengthMode.SKILL
    strength_value := 10
    movetime_ms := env.default_movetime_ms }

/-- Models game_loop.ensure_engine_rows: create a default EngineConfig for
each side that lacks one. -/
def ensure_engine_rows (env : Env) (g : Game) : Game :=
  let g1 := if g.white_engine = none then
    { g with white_engine := some (default_white_config env) } else g
  if g1.black_engine = none then
    { g1 with black_engine := some (default_black_config env) } else g1

/-- Models `game.engines.get(side=side)` after ensure_engine_rows has run
(the getD default never fires once both rows exist). -/
def engine_for (env : Env) (g : Game) (side : Side) : EngineConfig :=
  match side with
  | Side.WHITE => g.white_engine.getD (default_white_config env)
  | Side.BLACK => g.black_engine.getD (default_black_config env)

/-- Models game_loop preview duration per game:
`int(getattr(game, 'preview_ms', 350) or 350)` (zero falls back to 350). -/
def preview_ms_for_game (g : Game) : Nat :=
  if g.preview_ms = 0 then 350 else g.preview_ms

/-- Models `Side.WHITE if stm == "w" else Side.BLACK`. -/
def sideOf (stm : String) : Side :=
  if stm = "w" then Side.WHITE else Side.BLACK

/-- Models Game.mark_finished: set FINISHED, clear preview state, record
the result, reason and finish time. -/
def mark_finished (g : Game) (result : String) (reason : TerminationReason) (now : Nat) : Game :=
  { g with
    status := GameStatus.FINISHED
    pending_move_uci := ""
    pending_move_set_at := none
    result := result
    termination_reason := some reason
    finished_at := some now }

/-- Models game_loop mark-draw helper (the MatchRecord row it materializes
is not modelled: no verified claim reads it). -/
def finish_draw (g : Game) (reason : TerminationReason) (now : Nat) : Game :=
  mark_finished g "1/2-1/2" reason now

/-- Models game_loop forfeit helper: the opponent of `loser_side` wins,
reason RESIGN. -/
def finish_forfeit (g : Game) (loser_side : Side) (now : Nat) : Game :=
  mark_finished g (if loser_side = Side.BLACK then "1-0" else "0-1")
    TerminationReason.RESIGN now

/-- Models game_loop no-legal-move helper: checkmate when the side to move
is in check, stalemate otherwise.  `none` models an escaping exception
(UciError from the unguarded inspect_position, or ValueError from
side_to_move_from_fen). -/
def finish_no_moves (env : Env) (g : Game) (now : Nat) : Option Game :=
  match env.inspect_position g.fen with
  | none => none
  | some info =>
    let in_check := pyStrip (info.checkers_raw.getD "") ≠ ""
    match side_to_move_from_fen g.fen with
    | none => none
    | some stm =>
      let loser_side := sideOf stm
      if in_check then
        some (mark_finished g (if loser_side = Side.BLACK then "1-0" else "0-1")
          TerminationReason.CHECKMATE now)
      else
        some (mark_finished g "1/2-1/2" TerminationReason.STALEMATE now)

/-- Repetition key of a position: key text of the engine `d` dump, stripped,
empty when the engine call fails (the code wraps it in try/except). -/
def position_key_of (env : Env) (fen : String) : String :=
  match env.inspect_position fen with
  | none => ""
  | some info => pyStrip (info.key.getD "")

/-- Occurrence count used by threefold-repetition detection: one when the
stored non-empty starting-position key equals `key`, plus the Move rows of
this game whose stored key equals `key`. -/
def repetition_count (g : Game) (key : String) : Nat :=
  (if g.initial_position_key ≠ "" ∧ g.initial_position_key = key then 1 else 0)
  + (g.moves.filter (fun m => m.position_key_after = key)).length

/-- Models game_loop threefold-repetition helper. -/
def is_threefold_repetition (env : Env) (g : Game) : Bool :=
  let key := position_key_of env g.fen
  if key = "" then false else decide (3 ≤ repetition_count g key)

/-- Models game_loop fifty-move helper: halfmove clock at least 100; false
when the clock cannot be read (the code catches every exception). -/
def is_fifty_move (g : Game) : Bool :=
  match halfmove_clock_from_fen g.fen with
  | none => false
  | some n => decide ((100 : Int) ≤ n)

/-- Terminal-condition segment of tick's commit path (game_loop lines
200-214), applied to the state after the move was persisted.  `none` models
the IndexError escaping from the unguarded is_insufficient_material call. -/
def tick_terminal (env : Env) (now : Nat) (g : Game) : Option (TickOutcome × Game) :=
  if env.max_plies ≤ g.ply_count then
    some (⟨true, "Max plies draw."⟩, finish_draw g TerminationReason.MAX_PLIES now)
  else if is_threefold_repetition env g then
    some (⟨true, "Háromszori ismétlés: döntetlen."⟩, finish_draw g TerminationReason.REPETITION now)
  else if is_fifty_move g then
    some (⟨true, "50 lépés szabály: döntetlen."⟩, finish_draw g TerminationReason.FIFTY_MOVE now)
  else
    match is_insufficient_material g.fen with
    | none => none
    | some true =>
      some (⟨true, "Anyaghiány: döntetlen."⟩, finish_draw g TerminationReason.INSUFFICIENT now)
    | some false =>
      some (⟨true, "Lépés végrehajtva."⟩, g)

/-- MoveRecord row created by tick's commit path (game_loop lines 174-183). -/
def committed_move_record (g : Game) (info_after : DisplayInfo) (move_uci : String) : MoveRec :=
  { ply_index := g.ply_count + 1
    uci := move_uci
    san := move_uci
    fen_after := info_after.fen.getD ""
    position_key_after := info_after.key.getD ""
    is_check := decide (pyStrip (info_after.checkers_raw.getD "") ≠ "") }

/-- Game state after tick's commit path persisted the move (game_loop lines
174-198): MoveRecord appended, position and ply updated, preview state
cleared, next action scheduled `max(0, move_interval_ms - preview_ms)`
after now. -/
def applied_game (g : Game) (info_after : DisplayInfo) (move_uci : String)
    (stm2 : String) (now preview_ms : Nat) : Game :=
  { g with
    moves := g.moves ++ [committed_move_record g info_after move_uci]
    fen := info_after.fen.getD ""
    ply_count := g.ply_count + 1
    last_move_uci := move_uci
    last_move_san := move_uci
    side_to_move := stm2
    pending_move_uci := ""
    pending_move_set_at := none
    next_action_at := some (now + (g.move_interval_ms - preview_ms)) }

/-- Commit path of tick (game_loop lines 146-221): re-parse the side to
move, apply the pending move through the engine, validate that the FEN
changed, persist the MoveRecord and game fields, then evaluate the terminal
conditions.  `none` models an escaping exception (transaction rollback). -/
def tick_commit (env : Env) (now : Nat) (preview_ms : Nat) (move_uci : String)
    (g : Game) : Option (TickOutcome × Game) :=
  match side_to_move_from_fen g.fen with
  | none =>
    some (⟨false, "Hibás FEN; lezárva."⟩,
      mark_finished g "1/2-1/2" TerminationReason.UNKNOWN now)
  | some stm =>
    let side := sideOf stm
    match env.apply_and_inspect g.fen move_uci with
    | none => some (⟨false, "Engine hiba; forfeit."⟩, finish_forfeit g side now)
    | some info_after =>
      let fen_after := info_after.fen.getD ""
      if fen_after = "" ∨ fen_after = g.fen then
        some (⟨false, "Illegális lépés; forfeit."⟩, finish_forfeit g side now)
      else
        match side_to_move_from_fen fen_after with
        | none => none
        | some stm2 =>
          tick_terminal env now (applied_game g info_after move_uci stm2 now preview_ms)

/-- Decision part of tick's no-pending branch (game_loop lines 109-144):
recompute the side to move from the FEN, dispatch on the configured mover,
either wait for the human, forfeit on engine error, finish on no legal
move, or store the chosen move as a pending preview. -/
def tick_decide (env : Env) (now : Nat) (g : Game) : Option (TickOutcome × Game) :=
  match side_to_move_from_fen g.fen with
  | none =>
    some (⟨false, "Hibás FEN; lezárva."⟩,
      mark_finished g "1/2-1/2" TerminationReason.UNKNOWN now)
  | some stm =>
    let side := sideOf stm
    let cfg := engine_for env g side
    if cfg.engine_type = EngineType.PLAYER then
      -- The side_to_move assignment is not among the persisted update_fields
      -- on this path, so the stored game keeps its previous side_to_move.
      let g2 := if (pyStrip g.pending_move_uci) ≠ "" then
        { g with pending_move_uci := "", pending_move_set_at := none } else g
      some (⟨false, "Várakozás: játékos lép."⟩, g2)
    else
      match env.best_move g.fen cfg with
      | none =>
        some (⟨false, "Engine hiba; forfeit."⟩,
          finish_forfeit { g with side_to_move := stm } side now)
      | some bm =>
        if bm.move = "(none)" ∨ bm.move = "0000" then
          match finish_no_moves env { g with side_to_move := stm } now with
          | none => none
          | some g2 => some (⟨false, "Nincs legális lépés; game over."⟩, g2)
        else
          some (⟨false, "Előnézet (lépés kiemelve)."⟩,
            { g with
              side_to_move := stm
              pending_move_uci := bm.move
              pending_move_set_at := some now })

/-- Body of tick under an acquired lock (game_loop lines 89-221). -/
def tick_body (env : Env) (now : Nat) (g0 : Game) : Option (TickOutcome × Game) :=
  let g := ensure_engine_rows env g0
  if g.status ≠ GameStatus.RUNNING then
    some (⟨false, "Nem fut."⟩, g)
  else
    let preview_ms := preview_ms_for_game g
    if g.pending_move_uci ≠ "" then
      let deadline := (g.pending_move_set_at.getD now) + preview_ms
      if now < deadline then
        some (⟨false, "Előnézet (lépés kiemelve)."⟩, g)
      else
        tick_commit env now preview_ms g.pending_move_uci g
    else
      match g.next_action_at with
      | some t =>
        if now < t then some (⟨false, "Várakozás (sebesség)."⟩, g)
        else tick_decide env now g
      | none => tick_decide env now g

/-- Lock acquisition condition of tick (game_loop lines 82-84): the lock is
free, or its timestamp is null, or its timestamp is older than the 60s
staleness window. -/
def canAcquireLock (g : Game) (lock_now : Nat) : Bool :=
  !g.tick_lock ||
    (match g.tick_lock_at with
     | none => true
     | some t => decide (t + 60000 < lock_now))

/-- Result of one tick call: a returned outcome with the stored game state,
or an escaping exception with the rolled-back (original) state. -/
inductive TickRes where
  | ok (outcome : TickOutcome) (game : Game)
  | exn (game : Game)
deriving Repr, DecidableEq

/-- Models game_loop.tick.  `lock_now` and `now` are the two timezone.now()
readings (lock acquisition and tick body).  The finally block releases the
lock flag on every returning path; an escaping exception rolls the whole
transaction back. -/
def tick (env : Env) (lock_now now : Nat) (g : Game) : TickRes :=
  if !canAcquireLock g lock_now then
    TickRes.ok ⟨false, "Tick: foglalt (zár)."⟩ g
  else
    let gL := { g with tick_lock := true, tick_lock_at := some lock_now }
    match tick_body env now gL with
    | none => TickRes.exn g
    | some (out, g2) => TickRes.ok out { g2 with tick_lock := false }

/-! ## views.py: click_square_view terminal segment -/

/-- Terminal-condition segment of the human-move entry point
click_square_view (views.py lines 355-403), applied to the state after the
human move was applied and its MoveRecord created.  `is_checkmate` and
`is_stalemate` are the python-chess verdicts on the resulting board, `side`
is the mover's side and `pos_key` the repetition key of the resulting
position.  (The MatchRecord materialization is not modelled: no verified
claim reads it.) -/
def click_terminal (max_plies : Nat) (is_checkmate is_stalemate : Bool)
    (side : Side) (now : Nat) (pos_key : String) (g : Game) : Game :=
  let g1 :=
    if max_plies ≤ g.ply_count then
      mark_finished g "1/2-1/2" TerminationReason.MAX_PLIES now
    else if is_checkmate then
      mark_finished g (if side = Side.WHITE then "1-0" else "0-1")
        TerminationReason.CHECKMATE now
    else if is_stalemate then
      mark_finished g "1/2-1/2" TerminationReason.STALEMATE now
    else if pos_key ≠ "" then
      (if 3 ≤ repetition_count g pos_key then
        mark_finished g "1/2-1/2" TerminationReason.REPETITION now
      else g)
    else g
  let g2 :=
    if g1.status ≠ GameStatus.FINISHED ∧ is_fifty_move g1 then
      mark_finished g1 "1/2-1/2" TerminationReason.FIFTY_MOVE now
    else g1
  if g2.status ≠ GameStatus.FINISHED ∧ is_insufficient_material g2.fen = some true then
    mark_finished g2 "1/2-1/2" TerminationReason.INSUFFICIENT now
  else g2

/-! ## Concrete fixtures

Closed games and oracle environments used to evaluate the verified
operations on concrete inputs. -/

/-- A Stockfish-backed engine configuration at defaults. -/
def cfgStock : EngineConfig :=
  { engine_type := EngineType.STOCKFISH
    strength_mode := StrengthMode.SKILL
    strength_value := 10
    movetime_ms := 150 }

/-- Standard chess starting position. -/
def fenStart : String := "rnbqkbnr/pppppppp/8/8/8/8/PPPPPPPP/RNBQKBNR w KQkq - 0 1"

/-- Position after 1.e4. -/
def fenE4 : String := "rnbqkbnr/pppppppp/8/8/4P3/8/PPPP1PPP/RNBQKBNR b KQkq e4 0 1"

/-- Position after 1.f3 e5 2.g4 (one move before the fools-mate mate). -/
def fenPreMate : String := "rnbqkbnr/pppp1ppp/8/4p3/6P1/5P2/PPPPP2P/RNBQKBNR b KQkq g3 0 2"

/-- Fools-mate position after 2...Qh4#: White to move is checkmated. -/
def fenMate : String := "rnb1kbnr/pppp1ppp/8/4p3/6Pq/5P2/PPPPP2P/RNBQKBNR w KQkq - 1 3"

/-- Well-behaved oracle: the engine proposes e2e4, applies it from the
starting position, and keys every position by its FEN. -/
def envOk : Env :=
  { default_movetime_ms := 150
    max_plies := 600
    best_move := fun _ _ => some ⟨"e2e4"⟩
    apply_and_inspect := fun fen mv =>
      if fen = fenStart ∧ mv = "e2e4" then some ⟨some fenE4, some "K2", some ""⟩ else none
    inspect_position := fun fen => some ⟨some fen, some ("K." ++ fen), some ""⟩ }

/-- Oracle whose move selection raises UciError. -/
def envErrSelect : Env := { envOk with best_move := fun _ _ => none }

/-- Oracle whose move application raises UciError. -/
def envErrApply : Env := { envOk with apply_and_inspect := fun _ _ => none }

/-- Oracle reporting that no legal move exists, with no checkers (stalemate). -/
def envNoMoves : Env := { envOk with best_move := fun _ _ => some ⟨"(none)"⟩ }

/-- Oracle for the fools-mate commit: applying d8h4 from `fenPreMate`
yields `fenMate` with the white king in check. -/
def envMate : Env :=
  { default_movetime_ms := 150
    max_plies := 600
    best_move := fun _ _ => some ⟨"d8h4"⟩
    apply_and_inspect := fun fen mv =>
      if fen = fenPreMate ∧ mv = "d8h4" then some ⟨some fenMate, some "KM", some "h4"⟩ else none
    inspect_position := fun fen =>
      if fen = fenMate then some ⟨some fenMate, some "KM", some "h4"⟩
      else some ⟨some fen, some ("K." ++ fen), some ""⟩ }

/-- A freshly started running game at the initial position, no pending move. -/
def gBase : Game :=
  { status := GameStatus.RUNNING
    fen := fenStart
    side_to_move := "w"
    ply_count := 0
    move_interval_ms := 500
    preview_ms := 350
    next_action_at := some 0
    last_move_uci := ""
    last_move_san := ""
    pending_move_uci := ""
    pending_move_set_at := none
    tick_lock := false
    tick_lock_at := none
    result := ""
    termination_reason := none
    finished_at := none
    initial_position_key := "K." ++ fenStart
    white_engine := some cfgStock
    black_engine := some cfgStock
    moves := [] }

/-- The base game with the engine move e2e4 pending since t=1000. -/
def gPend : Game :=
  { gBase with pending_move_uci := "e2e4", pending_move_set_at := some 1000 }

/-- The base game with a freshly held tick lock. -/
def gBusy : Game :=
  { gBase with tick_lock := true, tick_lock_at := some 1000 }

/-- A running game one move before fools mate, with the mating move pending. -/
def gPreMate : Game :=
  { gBase with
    fen := fenPreMate
    side_to_move := "b"
    ply_count := 3
    pending_move_uci := "d8h4"
    pending_move_set_at := some 0 }

/-- State stored by the fools-mate commit tick. -/
def tickMateResult : Game :=
  match tick envMate 1000 1000 gPreMate with
  | TickRes.ok _ g2 => g2
  | TickRes.exn g2 => g2

/-- State stored by a proposing tick on the base game. -/
def gBaseTicked : Game :=
  match tick envOk 5 5 gBase with
  | TickRes.ok _ g2 => g2
  | TickRes.exn g2 => g2

/-- Outcome returned by a proposing tick on the base game. -/
def outBaseTicked : TickOutcome :=
  match tick envOk 5 5 gBase with
  | TickRes.ok out _ => out
  | TickRes.exn _ => ⟨false, ""⟩

/-- State stored by a committing tick on the pending game. -/
def gPendTicked : Game :=
  match tick envOk 1400 1400 gPend with
  | TickRes.ok _ g2 => g2
  | TickRes.exn g2 => g2

/-- Outcome returned by a committing tick on the pending game. -/
def outPendTicked : TickOutcome :=
  match tick envOk 1400 1400 gPend with
  | TickRes.ok out _ => out
  | TickRes.exn _ => ⟨false, ""⟩

/-! ## Basic lemmas about the embedding -/

@[simp] theorem mark_finished_status (g : Game) (r : String) (re : TerminationReason) (n : Nat) :
    (mark_finished g r re n).status = GameStatus.FINISHED := rfl

@[simp] theorem mark_finished_result (g : Game) (r : String) (re : TerminationReason) (n : Nat) :
    (mark_finished g r re n).result = r := rfl

@[simp] theorem mark_finished_termination_reason (g : Game) (r : String) (re : TerminationReason) (n : Nat) :
    (mark_finished g r re n).termination_reason = some re := rfl

@[simp] theorem mark_finished_moves (g : Game) (r : String) (re : TerminationReason) (n : Nat) :
    (mark_finished g r re n).moves = g.moves := rfl

@[simp] theorem mark_finished_ply_count (g : Game) (r : String) (re : TerminationReason) (n : Nat) :
    (mark_finished g r re n).ply_count = g.ply_count := rfl

@[simp] theorem mark_finished_fen (g : Game) (r : String) (re : TerminationReason) (n : Nat) :
    (mark_finished g r re n).fen = g.fen := rfl

@[simp] theorem mark_finished_tick_lock (g : Game) (r : String) (re : TerminationReason) (n : Nat) :
    (mark_finished g r re n).tick_lock = g.tick_lock := rfl

@[simp] theorem ensure_engine_rows_status (env : Env) (g : Game) :
    (ensure_engine_rows env g).status = g.status := by
  unfold ensure_engine_rows; dsimp only; split <;> split <;> rfl

@[simp] theorem ensure_engine_rows_fen (env : Env) (g : Game) :
    (ensure_engine_rows env g).fen = g.fen := by
  unfold ensure_engine_rows; dsimp only; split <;> split <;> rfl

@[simp] theorem ensure_engine_rows_ply_count (env : Env) (g : Game) :
    (ensure_engine_rows env g).ply_count = g.ply_count := by
  unfold ensure_engine_rows; dsimp only; split <;> split <;> rfl

@[simp] theorem ensure_engine_rows_moves (env : Env) (g : Game) :
    (ensure_engine_rows env g).moves = g.moves := by
  unfold ensure_engine_rows; dsimp only; split <;> split <;> rfl

@[simp] theorem ensure_engine_rows_pending_move_uci (env : Env) (g : Game) :
    (ensure_engine_rows env g).pending_move_uci = g.pending_move_uci := by
  unfold ensure_engine_rows; dsimp only; split <;> split <;> rfl

@[simp] theorem ensure_engine_rows_pending_move_set_at (env : Env) (g : Game) :
    (ensure_engine_rows env g).pending_move_set_at = g.pending_move_set_at := by
  unfold ensure_engine_rows; dsimp only; split <;> split <;> rfl

@[simp] theorem ensure_engine_rows_next_action_at (env : Env) (g : Game) :
    (ensure_engine_rows env g).next_action_at = g.next_action_at := by
  unfold ensure_engine_rows; dsimp only; split <;> split <;> rfl

@[simp] theorem ensure_engine_rows_preview_ms (env : Env) (g : Game) :
    (ensure_engine_rows env g).preview_ms = g.preview_ms := by
  unfold ensure_engine_rows; dsimp only; split <;> split <;> rfl

@[simp] theorem ensure_engine_rows_move_interval_ms (env : Env) (g : Game) :
    (ensure_engine_rows env g).move_interval_ms = g.move_interval_ms := by
  unfold ensure_engine_rows; dsimp only; split <;> split <;> rfl

@[simp] theorem ensure_engine_rows_initial_position_key (env : Env) (g : Game) :
    (ensure_engine_rows env g).initial_position_key = g.initial_position_key := by
  unfold ensure_engine_rows; dsimp only; split <;> split <;> rfl

@[simp] theorem ensure_engine_rows_side_to_move (env : Env) (g : Game) :
    (ensure_engine_rows env g).side_to_move = g.side_to_move := by
  unfold ensure_engine_rows; dsimp only; split <;> split <;> rfl

@[simp] theorem ensure_engine_rows_result (env : Env) (g : Game) :
    (ensure_engine_rows env g).result = g.result := by
  unfold ensure_engine_rows; dsimp only; split <;> split <;> rfl

@[simp] theorem ensure_engine_rows_termination_reason (env : Env) (g : Game) :
    (ensure_engine_rows env g).termination_reason = g.termination_reason := by
  unfold ensure_engine_rows; dsimp only; split <;> split <;> rfl

@[simp] theorem ensure_engine_rows_finished_at (env : Env) (g : Game) :
    (ensure_engine_rows env g).finished_at = g.finished_at := by
  unfold ensure_engine_rows; dsimp only; split <;> split <;> rfl

@[simp] theorem ensure_engine_rows_last_move_uci (env : Env) (g : Game) :
    (ensure_engine_rows env g).last_move_uci = g.last_move_uci := by
  unfold ensure_engine_rows; dsimp only; split <;> split <;> rfl

@[simp] theorem ensure_engine_rows_tick_lock (env : Env) (g : Game) :
    (ensure_engine_rows env g).tick_lock = g.tick_lock := by
  unfold ensure_engine_rows; dsimp only; split <;> split <;> rfl

@[simp] theorem ensure_engine_rows_tick_lock_at (env : Env) (g : Game) :
    (ensure_engine_rows env g).tick_lock_at = g.tick_lock_at := by
  unfold ensure_engine_rows; dsimp only; split <;> split <;> rfl

/-- Unfolding of tick once the lock is acquired. -/
theorem tick_eq_of_acquire (env : Env) (lock_now now : Nat) (g : Game)
    (h : canAcquireLock g lock_now = true) :
    tick env lock_now now g =
      match tick_body env now { g with tick_lock := true, tick_lock_at := some lock_now } with
      | none => TickRes.exn g
      | some (out, g2) => TickRes.ok out { g2 with tick_lock := false } := by
  unfold tick
  rw [h]
  rfl

/-- Unfolding of tick when the lock cannot be acquired. -/
theorem tick_eq_of_busy (env : Env) (lock_now now : Nat) (g : Game)
    (h : canAcquireLock g lock_now = false) :
    tick env lock_now now g = TickRes.ok ⟨false, "Tick: foglalt (zár)."⟩ g := by
  unfold tick
  rw [h]
  rfl

@[simp] theorem preview_ms_for_game_ensure (env : Env) (g : Game) :
    preview_ms_for_game (ensure_engine_rows env g) = preview_ms_for_game g := by
  unfold preview_ms_for_game
  rw [ensure_engine_rows_preview_ms]

/-- tick_body in the preview no-op case: a pending move whose preview
deadline has not passed leaves the state untouched. -/
theorem tick_body_preview (env : Env) (now : Nat) (g : Game) (t0 : Nat)
    (hrun : g.status = GameStatus.RUNNING)
    (hpend : g.pending_move_uci ≠ "")
    (hset : g.pending_move_set_at = some t0)
    (hlt : now < t0 + preview_ms_for_game g) :
    tick_body env now g =
      some (⟨false, "Előnézet (lépés kiemelve)."⟩, ensure_engine_rows env g) := by
  unfold tick_body
  simp only [ensure_engine_rows_status, ensure_engine_rows_pending_move_uci,
    ensure_engine_rows_pending_move_set_at, preview_ms_for_game_ensure,
    hrun, hset, Option.getD_some]
  simp [hpend, hlt]

/-- tick_body in the commit case: a pending move whose preview deadline has
passed is handed to the commit path. -/
theorem tick_body_commit (env : Env) (now : Nat) (g : Game) (t0 : Nat)
    (hrun : g.status = GameStatus.RUNNING)
    (hpend : g.pending_move_uci ≠ "")
    (hset : g.pending_move_set_at = some t0)
    (hge : t0 + preview_ms_for_game g ≤ now) :
    tick_body env now g =
      tick_commit env now (preview_ms_for_game g) g.pending_move_uci
        (ensure_engine_rows env g) := by
  unfold tick_body
  simp only [ensure_engine_rows_status, ensure_engine_rows_pending_move_uci,
    ensure_engine_rows_pending_move_set_at, preview_ms_for_game_ensure,
    hrun, hset, Option.getD_some]
  simp [hpend, Nat.not_lt.mpr hge]

/-- tick_commit reduced in the successful-application case. -/
theorem tick_commit_eq (env : Env) (now preview_ms : Nat) (move_uci : String)
    (g : Game) (stm : String) (info : DisplayInfo) (stm2 : String)
    (hstm : side_to_move_from_fen g.fen = some stm)
    (happ : env.apply_and_inspect g.fen move_uci = some info)
    (hne : info.fen.getD "" ≠ "")
    (hch : info.fen.getD "" ≠ g.fen)
    (hstm2 : side_to_move_from_fen (info.fen.getD "") = some stm2) :
    tick_commit env now preview_ms move_uci g =
      tick_terminal env now (applied_game g info move_uci stm2 now preview_ms) := by
  unfold tick_commit
  rw [hstm]
  dsimp only
  rw [happ]
  dsimp only
  rw [if_neg (by push_neg; exact ⟨hne, hch⟩), hstm2]

/-- tick_terminal fully evaluated when the insufficient-material test does
not raise. -/
theorem tick_terminal_eq (env : Env) (now : Nat) (g : Game) (b : Bool)
    (hins : is_insufficient_material g.fen = some b) :
    tick_terminal env now g =
      (if env.max_plies ≤ g.ply_count then
        some (⟨true, "Max plies draw."⟩, finish_draw g TerminationReason.MAX_PLIES now)
      else if is_threefold_repetition env g then
        some (⟨true, "Háromszori ismétlés: döntetlen."⟩,
          finish_draw g TerminationReason.REPETITION now)
      else if is_fifty_move g then
        some (⟨true, "50 lépés szabály: döntetlen."⟩,
          finish_draw g TerminationReason.FIFTY_MOVE now)
      else if b then
        some (⟨true, "Anyaghiány: döntetlen."⟩,
          finish_draw g TerminationReason.INSUFFICIENT now)
      else some (⟨true, "Lépés végrehajtva."⟩, g)) := by
  unfold tick_terminal
  rw [hins]
  cases b <;> rfl

/-- Every returned outcome of tick_terminal advances, and the terminal
checks never touch the move list, the ply count or the position. -/
theorem tick_terminal_shape (env : Env) (now : Nat) (g : Game) :
    ∀ out g2, tick_terminal env now g = some (out, g2) →
      out.advanced = true ∧ g2.moves = g.moves ∧ g2.ply_count = g.ply_count ∧
      g2.fen = g.fen := by
  intro out g2 h
  unfold tick_terminal at h
  split at h
  · simp only [Option.some.injEq, Prod.mk.injEq] at h
    obtain ⟨rfl, rfl⟩ := h
    simp [finish_draw]
  · split at h
    · simp only [Option.some.injEq, Prod.mk.injEq] at h
      obtain ⟨rfl, rfl⟩ := h
      simp [finish_draw]
    · split at h
      · simp only [Option.some.injEq, Prod.mk.injEq] at h
        obtain ⟨rfl, rfl⟩ := h
        simp [finish_draw]
      · split at h
        · simp at h
        · simp only [Option.some.injEq, Prod.mk.injEq] at h
          obtain ⟨rfl, rfl⟩ := h
          simp [finish_draw]
        · simp only [Option.some.injEq, Prod.mk.injEq] at h
          obtain ⟨rfl, rfl⟩ := h
          simp

theorem base_depth_bounds (cfg : EngineConfig) :
    1 ≤ base_depth cfg ∧ base_depth cfg ≤ 6 := by
  obtain ⟨et, sm, sv, mt⟩ := cfg
  cases sm <;> dsimp only [base_depth] <;> split_ifs <;> omega

theorem base_depth_mono (cfg cfg2 : EngineConfig)
    (hm : cfg.strength_mode = cfg2.strength_mode)
    (hsv : cfg.strength_value ≤ cfg2.strength_value) :
    base_depth cfg ≤ base_depth cfg2 := by
  obtain ⟨et, sm, sv, mt⟩ := cfg
  obtain ⟨et2, sm2, sv2, mt2⟩ := cfg2
  dsimp only at hm hsv
  subst hm
  cases sm <;> dsimp only [base_depth] <;> split_ifs <;> omega

theorem effective_movetime_mono (cfg cfg2 : EngineConfig)
    (hmt : cfg.movetime_ms ≤ cfg2.movetime_ms) :
    (500 ≤ effective_movetime cfg → 500 ≤ effective_movetime cfg2) ∧
    (1000 ≤ effective_movetime cfg → 1000 ≤ effective_movetime cfg2) := by
  unfold effective_movetime
  split_ifs <;> omega

theorem depth_from_strength_eq (cfg : EngineConfig) :
    depth_from_strength cfg =
      max 1 (min 7 (base_depth cfg
        + (if 500 ≤ effective_movetime cfg then 1 else 0)
        + (if 1000 ≤ effective_movetime cfg then 1 else 0))) := by
  unfold depth_from_strength
  dsimp only
  split_ifs <;> omega

/-! ## Claim theorems -/

/-- C9: the embedded engine's depth selection always lands in [1,7]; it is
monotone in the strength value (at fixed mode and time budget), monotone in
the per-move time budget, and the time budget contributes exactly one step
at >= 500 ms and one more at >= 1000 ms, hence at most +2 over the base
depth of the strength table. -/
theorem depth_from_strength_bounds_and_monotone (cfg : EngineConfig) :
    (1 ≤ depth_from_strength cfg ∧ depth_from_strength cfg ≤ 7) ∧
    depth_from_strength cfg =
      max 1 (min 7 (base_depth cfg
        + (if 500 ≤ effective_movetime cfg then 1 else 0)
        + (if 1000 ≤ effective_movetime cfg then 1 else 0))) ∧
    depth_from_strength cfg ≤ base_depth cfg + 2 ∧
    (∀ cfg2 : EngineConfig, cfg.strength_mode = cfg2.strength_mode →
      cfg.movetime_ms = cfg2.movetime_ms →
      cfg.strength_value ≤ cfg2.strength_value →
      depth_from_strength cfg ≤ depth_from_strength cfg2) ∧
    (∀ cfg2 : EngineConfig, cfg.strength_mode = cfg2.strength_mode →
      cfg.strength_value = cfg2.strength_value →
      cfg.movetime_ms ≤ cfg2.movetime_ms →
      depth_from_strength cfg ≤ depth_from_strength cfg2) := by
  have hb := depth_from_strength_eq cfg
  have hbb := base_depth_bounds cfg
  refine ⟨?_, hb, ?_, ?_, ?_⟩
  · rw [hb]; split_ifs <;> omega
  · rw [hb]; split_ifs <;> omega
  · intro cfg2 hm hmt hsv
    have h1 := base_depth_mono cfg cfg2 hm hsv
    have h2 : effective_movetime cfg = effective_movetime cfg2 := by
      unfold effective_movetime; rw [hmt]
    rw [depth_from_strength_eq cfg, depth_from_strength_eq cfg2, h2]
    split_ifs <;> omega
  · intro cfg2 hm hsv hmt
    have h1 : base_depth cfg = base_depth cfg2 := by
      unfold base_depth; rw [hm, hsv]
    have h2 := effective_movetime_mono cfg cfg2 hmt
    rw [depth_from_strength_eq cfg, depth_from_strength_eq cfg2, h1]
    rcases h2 with ⟨h5, h10⟩
    split_ifs <;> omega

/-- C7: the threefold-repetition test fires exactly when the current
position key is non-empty and occurs at least three times, counting one for
the stored starting-position key when it equals the current key plus the
MoveRecords whose stored key equals the current key; two or fewer
occurrences never fire it. -/
theorem threefold_repetition_characterization (env : Env) (g : Game) :
    is_threefold_repetition env g = true ↔
      (position_key_of env g.fen ≠ "" ∧
       3 ≤ (if g.initial_position_key = position_key_of env g.fen then 1 else 0)
         + (g.moves.filter
             (fun m => m.position_key_after = position_key_of env g.fen)).length) := by
  unfold is_threefold_repetition repetition_count
  by_cases hk : position_key_of env g.fen = ""
  · simp [hk]
  · by_cases hi : g.initial_position_key = position_key_of env g.fen
    · have hi2 : g.initial_position_key ≠ "" := by rw [hi]; exact hk
      simp [hk, hi, hi2]
    · simp [hk, hi]

/-- C8: the insufficient-material test returns true exactly for bare kings,
exactly one minor piece (single bishop or single knight) besides the kings,
or only bishops with at most one bishop per side; it returns false whenever
a pawn, rook, or queen is on the board. -/
theorem insufficient_material_characterization (fen placement : String) (rest : List String)
    (hsplit : pySplit fen = placement :: rest) :
    (is_insufficient_material fen = some true ↔
      ((placement.toList.filter (fun c => c.isAlpha)).filter
          (fun c => !(c = 'K' || c = 'k')) = []
       ∨ (∃ c, (placement.toList.filter (fun c => c.isAlpha)).filter
            (fun c => !(c = 'K' || c = 'k')) = [c]
          ∧ (c = 'B' ∨ c = 'b' ∨ c = 'N' ∨ c = 'n'))
       ∨ ((∀ c ∈ (placement.toList.filter (fun c => c.isAlpha)).filter
            (fun c => !(c = 'K' || c = 'k')), c = 'B' ∨ c = 'b')
          ∧ (((placement.toList.filter (fun c => c.isAlpha)).filter
              (fun c => !(c = 'K' || c = 'k'))).filter (fun c => c = 'B')).length ≤ 1
          ∧ (((placement.toList.filter (fun c => c.isAlpha)).filter
              (fun c => !(c = 'K' || c = 'k'))).filter (fun c => c = 'b')).length ≤ 1)))
    ∧ (∀ c ∈ placement.toList,
        (c = 'P' ∨ c = 'p' ∨ c = 'R' ∨ c = 'r' ∨ c = 'Q' ∨ c = 'q') →
        is_insufficient_material fen = some false) := by
  unfold is_insufficient_material
  rw [hsplit]
  dsimp only
  rw [Option.some_inj, Option.some_inj]
  unfold insufficient_core
  dsimp only
  generalize hM : (placement.toList.filter (fun c => c.isAlpha)).filter
      (fun c => !(c = 'K' || c = 'k')) = l
  constructor
  · rcases l with _ | ⟨c0, l0⟩
    · simp
    · rw [List.isEmpty_cons]
      simp only [if_neg Bool.false_ne_true]
      by_cases h2 : (c0 :: l0).any
          (fun c => decide (c = 'P') || decide (c = 'p') || decide (c = 'R') ||
            decide (c = 'r') || decide (c = 'Q') || decide (c = 'q')) = true
      · rw [if_pos h2]
        obtain ⟨x, hx, hfx⟩ := List.any_eq_true.mp h2
        simp only [Bool.or_eq_true, decide_eq_true_eq] at hfx
        constructor
        · intro hff; exact absurd hff (by simp)
        · rintro (habs | ⟨y, hy, hyv⟩ | ⟨hall, hB, hb⟩)
          · exact absurd habs (by simp)
          · rw [hy] at hx
            rcases List.mem_singleton.mp hx with rfl
            rcases hyv with rfl | rfl | rfl | rfl <;> simp at hfx
          · have := hall x hx
            rcases this with rfl | rfl <;> simp at hfx
      · rw [if_neg h2]
        by_cases h3 : ((c0 :: l0).length = 1 &&
            ((c0 :: l0).headD 'K' = 'B' || (c0 :: l0).headD 'K' = 'b' ||
             (c0 :: l0).headD 'K' = 'N' || (c0 :: l0).headD 'K' = 'n')) = true
        · rw [if_pos h3]
          simp only [Bool.and_eq_true, Bool.or_eq_true, decide_eq_true_eq,
            List.length_cons, List.headD_cons, Nat.add_left_eq_self,
            List.length_eq_zero] at h3
          obtain ⟨hlen, hc0⟩ := h3
          subst hlen
          constructor
          · intro _
            exact Or.inr (Or.inl ⟨c0, rfl, by tauto⟩)
          · intro _; rfl
        · rw [if_neg h3]
          by_cases h4 : ((c0 :: l0).all (fun c => decide (c = 'B') || decide (c = 'b')) &&
              decide (((c0 :: l0).filter (fun c => decide (c = 'B'))).length ≤ 1) &&
              decide (((c0 :: l0).filter (fun c => decide (c = 'b'))).length ≤ 1)) = true
          · rw [if_pos h4]
            simp only [Bool.and_eq_true, List.all_eq_true, Bool.or_eq_true,
              decide_eq_true_eq] at h4
            obtain ⟨⟨hall, hB⟩, hb⟩ := h4
            constructor
            · intro _
              exact Or.inr (Or.inr ⟨hall, hB, hb⟩)
            · intro _; rfl
          · rw [if_neg h4]
            constructor
            · intro hff; exact absurd hff (by simp)
            · rintro (habs | ⟨y, hy, hyv⟩ | ⟨hall, hB, hb⟩)
              · exact absurd habs (by simp)
              · exfalso
                apply h3
                rcases List.cons.injEq c0 l0 y [] ▸ hy with ⟨rfl, rfl⟩
                simp only [Bool.and_eq_true, Bool.or_eq_true, decide_eq_true_eq,
                  List.length_cons, List.length_nil, List.headD_cons]
                exact ⟨by simp, by tauto⟩
              · exfalso
                apply h4
                simp only [Bool.and_eq_true, List.all_eq_true, Bool.or_eq_true,
                  decide_eq_true_eq]
                exact ⟨⟨hall, hB⟩, hb⟩
  · intro c hcp hcv
    have hcm : c ∈ l := by
      rw [← hM]
      apply List.mem_filter.mpr
      refine ⟨List.mem_filter.mpr ⟨hcp, ?_⟩, ?_⟩
      · rcases hcv with rfl | rfl | rfl | rfl | rfl | rfl <;> decide
      · rcases hcv with rfl | rfl | rfl | rfl | rfl | rfl <;> decide
    have hne : l.isEmpty = false := by
      rcases l with _ | _
      · simp at hcm
      · rfl
    rw [hne]
    simp only [if_neg Bool.false_ne_true]
    have hany : l.any (fun c => decide (c = 'P') || decide (c = 'p') || decide (c = 'R') ||
        decide (c = 'r') || decide (c = 'Q') || decide (c = 'q')) = true := by
      apply List.any_eq_true.mpr
      exact ⟨c, hcm, by rcases hcv with rfl | rfl | rfl | rfl | rfl | rfl <;> decide⟩
    rw [if_pos hany]

/-- C5: tick's lock acquisition succeeds exactly when the lock is free,
never set, or stale (older than 60s); a failed acquisition is a busy no-op
returning the game unchanged; and whenever the lock was acquired, every
returning path releases it, while an exceptional path rolls back to the
original state, which cannot be a held fresh lock. -/
theorem tick_lock_protocol (env : Env) (lock_now now : Nat) (g : Game) :
    (canAcquireLock g lock_now = true ↔
      (g.tick_lock = false ∨ g.tick_lock_at = none ∨
        ∃ t, g.tick_lock_at = some t ∧ t + 60000 < lock_now)) ∧
    (canAcquireLock g lock_now = false →
      tick env lock_now now g = TickRes.ok ⟨false, "Tick: foglalt (zár)."⟩ g) ∧
    (canAcquireLock g lock_now = true →
      (∀ out g2, tick env lock_now now g = TickRes.ok out g2 → g2.tick_lock = false) ∧
      (∀ g2, tick env lock_now now g = TickRes.exn g2 → g2 = g ∧
        (g2.tick_lock = true → g2.tick_lock_at = none ∨
          ∃ t, g2.tick_lock_at = some t ∧ t + 60000 < lock_now))) := by
  refine ⟨?_, tick_eq_of_busy env lock_now now g, ?_⟩
  · unfold canAcquireLock
    cases hl : g.tick_lock <;> cases ha : g.tick_lock_at <;> simp
  · intro h
    constructor
    · intro out g2 htk
      rw [tick_eq_of_acquire env lock_now now g h] at htk
      cases htb : tick_body env now
          { g with tick_lock := true, tick_lock_at := some lock_now } with
      | none =>
        rw [htb] at htk
        exact absurd htk (by simp)
      | some p =>
        obtain ⟨out2, g3⟩ := p
        rw [htb] at htk
        simp only [TickRes.ok.injEq] at htk
        rw [← htk.2]
    · intro g2 htk
      rw [tick_eq_of_acquire env lock_now now g h] at htk
      cases htb : tick_body env now
          { g with tick_lock := true, tick_lock_at := some lock_now } with
      | none =>
        rw [htb] at htk
        simp only [TickRes.exn.injEq] at htk
        subst htk
        refine ⟨rfl, ?_⟩
        intro hl
        unfold canAcquireLock at h
        rw [hl] at h
        cases ha : g.tick_lock_at with
        | none => exact Or.inl rfl
        | some t =>
          rw [ha] at h
          simp only [Bool.not_true, Bool.false_or, decide_eq_true_eq] at h
          exact Or.inr ⟨t, rfl, h⟩
      | some p =>
        obtain ⟨out2, g3⟩ := p
        rw [htb] at htk
        exact absurd htk (by simp)

/-- Tick reduced to the terminal segment when the lock is acquired, a
pending move has passed its preview deadline, and the application through
the engine succeeds with a changed position. -/
theorem tick_eq_commit (env : Env) (lock_now now : Nat) (g : Game) (t0 : Nat)
    (stm : String) (info : DisplayInfo) (stm2 : String)
    (hacq : canAcquireLock g lock_now = true)
    (hrun : g.status = GameStatus.RUNNING)
    (hpend : g.pending_move_uci ≠ "")
    (hset : g.pending_move_set_at = some t0)
    (hge : t0 + preview_ms_for_game g ≤ now)
    (hstm : side_to_move_from_fen g.fen = some stm)
    (happ : env.apply_and_inspect g.fen g.pending_move_uci = some info)
    (hne : info.fen.getD "" ≠ "")
    (hch : info.fen.getD "" ≠ g.fen)
    (hstm2 : side_to_move_from_fen (info.fen.getD "") = some stm2) :
    tick env lock_now now g =
      match tick_terminal env now
        (applied_game
          (ensure_engine_rows env { g with tick_lock := true, tick_lock_at := some lock_now })
          info g.pending_move_uci stm2 now (preview_ms_for_game g)) with
      | none => TickRes.exn g
      | some (out, g2) => TickRes.ok out { g2 with tick_lock := false } := by
  rw [tick_eq_of_acquire env lock_now now g hacq,
    tick_body_commit env now
      { g with tick_lock := true, tick_lock_at := some lock_now } t0 hrun hpend hset hge,
    tick_commit_eq env now
      (preview_ms_for_game ({ g with tick_lock := true, tick_lock_at := some lock_now } : Game))
      (({ g with tick_lock := true, tick_lock_at := some lock_now } : Game).pending_move_uci)
      (ensure_engine_rows env { g with tick_lock := true, tick_lock_at := some lock_now })
      stm info stm2
      (by rw [ensure_engine_rows_fen]; exact hstm)
      (by rw [ensure_engine_rows_fen]; exact happ)
      hne
      (by rw [ensure_engine_rows_fen]; exact hch)
      hstm2]
  rfl

/-- C1: for a running game with a pending move, a tick before the preview
deadline changes no game state and reports not-advanced; a tick at or after
the deadline (whose application succeeds) appends exactly one MoveRecord,
increments the ply count by one and replaces the position with the move's
resulting position. -/
theorem tick_two_phase_preview_then_commit (env : Env) (lock_now now : Nat)
    (g : Game) (t0 : Nat)
    (hacq : canAcquireLock g lock_now = true)
    (hrun : g.status = GameStatus.RUNNING)
    (hpend : g.pending_move_uci ≠ "")
    (hset : g.pending_move_set_at = some t0) :
    (now < t0 + preview_ms_for_game g →
      ∃ g2, tick env lock_now now g =
          TickRes.ok ⟨false, "Előnézet (lépés kiemelve)."⟩ g2 ∧
        g2.fen = g.fen ∧ g2.ply_count = g.ply_count ∧ g2.moves = g.moves ∧
        g2.pending_move_uci = g.pending_move_uci ∧
        g2.pending_move_set_at = g.pending_move_set_at ∧
        g2.status = g.status ∧ g2.termination_reason = g.termination_reason) ∧
    (t0 + preview_ms_for_game g ≤ now →
      ∀ stm info stm2 b,
        side_to_move_from_fen g.fen = some stm →
        env.apply_and_inspect g.fen g.pending_move_uci = some info →
        info.fen.getD "" ≠ "" →
        info.fen.getD "" ≠ g.fen →
        side_to_move_from_fen (info.fen.getD "") = some stm2 →
        is_insufficient_material (info.fen.getD "") = some b →
        ∃ out g2, tick env lock_now now g = TickRes.ok out g2 ∧
          (∃ m, g2.moves = g.moves ++ [m] ∧ m.ply_index = g.ply_count + 1 ∧
            m.uci = g.pending_move_uci ∧ m.fen_after = info.fen.getD "") ∧
          g2.ply_count = g.ply_count + 1 ∧
          g2.fen = info.fen.getD "") := by
  constructor
  · intro hlt
    rw [tick_eq_of_acquire env lock_now now g hacq,
      tick_body_preview env now
        { g with tick_lock := true, tick_lock_at := some lock_now } t0 hrun hpend hset hlt]
    exact ⟨_, rfl, by simp, by simp, by simp, by simp, by simp, by simp [hrun], by simp⟩
  · intro hge stm info stm2 b hstm happ hne hch hstm2 hins
    rw [tick_eq_commit env lock_now now g t0 stm info stm2
      hacq hrun hpend hset hge hstm happ hne hch hstm2]
    have hinsA : is_insufficient_material
        (applied_game
          (ensure_engine_rows env { g with tick_lock := true, tick_lock_at := some lock_now })
          info g.pending_move_uci stm2 now (preview_ms_for_game g)).fen
        = some b := hins
    have hx : ∃ out g2, tick_terminal env now
        (applied_game
          (ensure_engine_rows env { g with tick_lock := true, tick_lock_at := some lock_now })
          info g.pending_move_uci stm2 now (preview_ms_for_game g))
        = some (out, g2) := by
      rw [tick_terminal_eq env now _ b hinsA]
      split_ifs <;> exact ⟨_, _, rfl⟩
    obtain ⟨out, g2x, hterm⟩ := hx
    obtain ⟨hadv, hm, hp, hf⟩ := tick_terminal_shape env now _ out g2x hterm
    rw [hterm]
    refine ⟨out, { g2x with tick_lock := false }, rfl, ?_, ?_, ?_⟩
    · refine ⟨committed_move_record
        (ensure_engine_rows env { g with tick_lock := true, tick_lock_at := some lock_now })
        info g.pending_move_uci, ?_, ?_, ?_, ?_⟩
      · show g2x.moves = _
        rw [hm]
        simp [applied_game]
      · simp [committed_move_record]
      · simp [committed_move_record]
      · simp [committed_move_record]
    · show g2x.ply_count = _
      rw [hp]
      simp [applied_game]
    · show g2x.fen = _
      rw [hf]
      rfl

theorem is_threefold_repetition_congr (env : Env) (g1 g2 : Game)
    (hf : g1.fen = g2.fen) (hi : g1.initial_position_key = g2.initial_position_key)
    (hm : g1.moves = g2.moves) :
    is_threefold_repetition env g1 = is_threefold_repetition env g2 := by
  unfold is_threefold_repetition repetition_count position_key_of
  rw [hf, hi, hm]

theorem is_fifty_move_congr (g1 g2 : Game) (hf : g1.fen = g2.fen) :
    is_fifty_move g1 = is_fifty_move g2 := by
  unfold is_fifty_move
  rw [hf]

/-- C2: in tick's commit path the terminal conditions are evaluated in the
fixed order max-plies, repetition, fifty-move, insufficient material, and
the first condition that holds determines the single recorded termination
reason. -/
theorem tick_commit_terminal_precedence (env : Env) (lock_now now : Nat)
    (g : Game) (t0 : Nat) (stm : String) (info : DisplayInfo) (stm2 : String) (b : Bool)
    (hacq : canAcquireLock g lock_now = true)
    (hrun : g.status = GameStatus.RUNNING)
    (hpend : g.pending_move_uci ≠ "")
    (hset : g.pending_move_set_at = some t0)
    (hge : t0 + preview_ms_for_game g ≤ now)
    (hstm : side_to_move_from_fen g.fen = some stm)
    (happ : env.apply_and_inspect g.fen g.pending_move_uci = some info)
    (hne : info.fen.getD "" ≠ "")
    (hch : info.fen.getD "" ≠ g.fen)
    (hstm2 : side_to_move_from_fen (info.fen.getD "") = some stm2)
    (hins : is_insufficient_material (info.fen.getD "") = some b) :
    ∃ out g2, tick env lock_now now g = TickRes.ok out g2 ∧
      g2.termination_reason =
        (if env.max_plies ≤ g.ply_count + 1 then some TerminationReason.MAX_PLIES
         else if is_threefold_repetition env
             (applied_game g info g.pending_move_uci stm2 now (preview_ms_for_game g)) then
           some TerminationReason.REPETITION
         else if is_fifty_move
             (applied_game g info g.pending_move_uci stm2 now (preview_ms_for_game g)) then
           some TerminationReason.FIFTY_MOVE
         else if b then some TerminationReason.INSUFFICIENT
         else g.termination_reason) := by
  rw [tick_eq_commit env lock_now now g t0 stm info stm2
    hacq hrun hpend hset hge hstm happ hne hch hstm2]
  have hinsA : is_insufficient_material
      (applied_game
        (ensure_engine_rows env { g with tick_lock := true, tick_lock_at := some lock_now })
        info g.pending_move_uci stm2 now (preview_ms_for_game g)).fen = some b := hins
  rw [tick_terminal_eq env now _ b hinsA]
  have e1 : (applied_game
      (ensure_engine_rows env { g with tick_lock := true, tick_lock_at := some lock_now })
      info g.pending_move_uci stm2 now (preview_ms_for_game g)).ply_count
      = g.ply_count + 1 := by
    simp [applied_game]
  have e2 : is_threefold_repetition env
      (applied_game
        (ensure_engine_rows env { g with tick_lock := true, tick_lock_at := some lock_now })
        info g.pending_move_uci stm2 now (preview_ms_for_game g))
      = is_threefold_repetition env
        (applied_game g info g.pending_move_uci stm2 now (preview_ms_for_game g)) :=
    is_threefold_repetition_congr env _ _ rfl
      (by simp [applied_game]) (by simp [applied_game, committed_move_record])
  have e3 : is_fifty_move
      (applied_game
        (ensure_engine_rows env { g with tick_lock := true, tick_lock_at := some lock_now })
        info g.pending_move_uci stm2 now (preview_ms_for_game g))
      = is_fifty_move
        (applied_game g info g.pending_move_uci stm2 now (preview_ms_for_game g)) :=
    is_fifty_move_congr _ _ rfl
  rw [e1, e2, e3]
  split_ifs <;> exact ⟨_, _, rfl, by simp [finish_draw, applied_game]⟩

theorem engine_for_ensure_update (env : Env) (g : Game) (lock_now : Nat) (side : Side) :
    engine_for env
        (ensure_engine_rows env { g with tick_lock := true, tick_lock_at := some lock_now }) side
      = engine_for env (ensure_engine_rows env g) side := by
  by_cases hw : g.white_engine = none <;> by_cases hb : g.black_engine = none <;>
    cases side <;> simp [ensure_engine_rows, engine_for, hw, hb]

/-- tick_body in the no-pending case with the cadence due: dispatch to the
mover decision. -/
theorem tick_body_decide (env : Env) (now : Nat) (g : Game)
    (hrun : g.status = GameStatus.RUNNING)
    (hnop : g.pending_move_uci = "")
    (hwait : g.next_action_at = none ∨ ∃ t, g.next_action_at = some t ∧ t ≤ now) :
    tick_body env now g = tick_decide env now (ensure_engine_rows env g) := by
  unfold tick_body
  rcases hwait with h | ⟨t, ht, hle⟩
  · simp only [ensure_engine_rows_status, ensure_engine_rows_pending_move_uci,
      ensure_engine_rows_next_action_at, hrun, hnop, h]
    simp
  · simp only [ensure_engine_rows_status, ensure_engine_rows_pending_move_uci,
      ensure_engine_rows_next_action_at, hrun, hnop, ht]
    simp [Nat.not_lt.mpr hle]

/-- tick_decide when the mover raises a UciError during move selection. -/
theorem tick_decide_forfeit (env : Env) (now : Nat) (g : Game) (stm : String)
    (hstm : side_to_move_from_fen g.fen = some stm)
    (hcfg : (engine_for env g (sideOf stm)).engine_type ≠ EngineType.PLAYER)
    (hbm : env.best_move g.fen (engine_for env g (sideOf stm)) = none) :
    tick_decide env now g = some (⟨false, "Engine hiba; forfeit."⟩,
      finish_forfeit { g with side_to_move := stm } (sideOf stm) now) := by
  unfold tick_decide
  rw [hstm]
  dsimp only
  rw [if_neg hcfg, hbm]

/-- tick_decide when the mover reports that no legal move exists. -/
theorem tick_decide_no_moves (env : Env) (now : Nat) (g : Game) (stm : String)
    (bm : UciBestMove)
    (hstm : side_to_move_from_fen g.fen = some stm)
    (hcfg : (engine_for env g (sideOf stm)).engine_type ≠ EngineType.PLAYER)
    (hbm : env.best_move g.fen (engine_for env g (sideOf stm)) = some bm)
    (hnm : bm.move = "(none)" ∨ bm.move = "0000") :
    tick_decide env now g =
      match finish_no_moves env { g with side_to_move := stm } now with
      | none => none
      | some g2 => some (⟨false, "Nincs legális lépés; game over."⟩, g2) := by
  unfold tick_decide
  rw [hstm]
  dsimp only
  rw [if_neg hcfg, hbm]
  dsimp only
  rw [if_pos hnm]

/-- finish_no_moves fully evaluated. -/
theorem finish_no_moves_eq (env : Env) (g : Game) (now : Nat)
    (info : DisplayInfo) (stm : String)
    (hi : env.inspect_position g.fen = some info)
    (hs : side_to_move_from_fen g.fen = some stm) :
    finish_no_moves env g now = some
      (if pyStrip (info.checkers_raw.getD "") ≠ "" then
        mark_finished g (if sideOf stm = Side.BLACK then "1-0" else "0-1")
          TerminationReason.CHECKMATE now
      else mark_finished g "1/2-1/2" TerminationReason.STALEMATE now) := by
  unfold finish_no_moves
  rw [hi]
  dsimp only
  rw [hs]
  dsimp only
  split_ifs <;> rfl

/-- tick_commit when the mover raises a UciError while applying the move. -/
theorem tick_commit_apply_error (env : Env) (now preview_ms : Nat)
    (move_uci : String) (g : Game) (stm : String)
    (hstm : side_to_move_from_fen g.fen = some stm)
    (happ : env.apply_and_inspect g.fen move_uci = none) :
    tick_commit env now preview_ms move_uci g =
      some (⟨false, "Engine hiba; forfeit."⟩, finish_forfeit g (sideOf stm) now) := by
  unfold tick_commit
  rw [hstm]
  dsimp only
  rw [happ]

/-- C4: a running game whose configured mover reports no legal move is
finished without a forfeit: checkmate for the opponent when the side to
move is in check, stalemate draw otherwise. -/
theorem tick_no_legal_move_resolution (env : Env) (lock_now now : Nat)
    (g : Game) (stm : String) (bm : UciBestMove) (info : DisplayInfo)
    (hacq : canAcquireLock g lock_now = true)
    (hrun : g.status = GameStatus.RUNNING)
    (hnop : g.pending_move_uci = "")
    (hwait : g.next_action_at = none ∨ ∃ t, g.next_action_at = some t ∧ t ≤ now)
    (hstm : side_to_move_from_fen g.fen = some stm)
    (hcfg : (engine_for env (ensure_engine_rows env g) (sideOf stm)).engine_type
      ≠ EngineType.PLAYER)
    (hbm : env.best_move g.fen (engine_for env (ensure_engine_rows env g) (sideOf stm))
      = some bm)
    (hnm : bm.move = "(none)" ∨ bm.move = "0000")
    (hinsp : env.inspect_position g.fen = some info) :
    ∃ g2, tick env lock_now now g =
        TickRes.ok ⟨false, "Nincs legális lépés; game over."⟩ g2 ∧
      g2.status = GameStatus.FINISHED ∧
      g2.termination_reason = some (if pyStrip (info.checkers_raw.getD "") ≠ ""
        then TerminationReason.CHECKMATE else TerminationReason.STALEMATE) ∧
      g2.result = (if pyStrip (info.checkers_raw.getD "") ≠ ""
        then (if sideOf stm = Side.BLACK then "1-0" else "0-1") else "1/2-1/2") ∧
      g2.termination_reason ≠ some TerminationReason.RESIGN ∧
      g2.moves = g.moves ∧ g2.ply_count = g.ply_count := by
  rw [tick_eq_of_acquire env lock_now now g hacq,
    tick_body_decide env now
      { g with tick_lock := true, tick_lock_at := some lock_now } hrun hnop hwait,
    tick_decide_no_moves env now
      (ensure_engine_rows env { g with tick_lock := true, tick_lock_at := some lock_now })
      stm bm
      (by rw [ensure_engine_rows_fen]; exact hstm)
      (by rw [engine_for_ensure_update]; exact hcfg)
      (by rw [ensure_engine_rows_fen, engine_for_ensure_update]; exact hbm)
      hnm,
    finish_no_moves_eq env
      { ensure_engine_rows env { g with tick_lock := true, tick_lock_at := some lock_now }
        with side_to_move := stm }
      now info stm
      (by dsimp only; rw [ensure_engine_rows_fen]; exact hinsp)
      (by dsimp only; rw [ensure_engine_rows_fen]; exact hstm)]
  by_cases hc : pyStrip (info.checkers_raw.getD "") ≠ ""
  · rw [if_pos hc]
    refine ⟨_, rfl, by simp, ?_, ?_, ?_, by simp, by simp⟩
    · simp [if_pos hc]
    · simp [if_pos hc]
    · simp [if_pos hc]
  · rw [if_neg hc]
    refine ⟨_, rfl, by simp, ?_, ?_, ?_, by simp, by simp⟩
    · simp [if_neg hc]
    · simp [if_neg hc]
    · simp [if_neg hc]

/-- C6: a mover protocol/process error during move selection or move
application finishes the game as a forfeit of the side being served: the
opponent receives the winning score, the status becomes Finished with
reason RESIGN, and nothing is retried. -/
theorem tick_mover_error_forfeit (env : Env) (lock_now now : Nat)
    (g : Game) (stm : String)
    (hacq : canAcquireLock g lock_now = true)
    (hrun : g.status = GameStatus.RUNNING)
    (hstm : side_to_move_from_fen g.fen = some stm)
    (hcase :
      (g.pending_move_uci = ""
        ∧ (g.next_action_at = none ∨ ∃ t, g.next_action_at = some t ∧ t ≤ now)
        ∧ (engine_for env (ensure_engine_rows env g) (sideOf stm)).engine_type
            ≠ EngineType.PLAYER
        ∧ env.best_move g.fen
            (engine_for env (ensure_engine_rows env g) (sideOf stm)) = none)
      ∨ (∃ t0, g.pending_move_uci ≠ "" ∧ g.pending_move_set_at = some t0
          ∧ t0 + preview_ms_for_game g ≤ now
          ∧ env.apply_and_inspect g.fen g.pending_move_uci = none)) :
    ∃ g2, tick env lock_now now g = TickRes.ok ⟨false, "Engine hiba; forfeit."⟩ g2 ∧
      g2.status = GameStatus.FINISHED ∧
      g2.termination_reason = some TerminationReason.RESIGN ∧
      g2.result = (if sideOf stm = Side.BLACK then "1-0" else "0-1") ∧
      g2.moves = g.moves ∧ g2.ply_count = g.ply_count := by
  rcases hcase with ⟨hnop, hwait, hcfg, hbm⟩ | ⟨t0, hpend, hset, hge, happ⟩
  · rw [tick_eq_of_acquire env lock_now now g hacq,
      tick_body_decide env now
        { g with tick_lock := true, tick_lock_at := some lock_now } hrun hnop hwait,
      tick_decide_forfeit env now
        (ensure_engine_rows env { g with tick_lock := true, tick_lock_at := some lock_now })
        stm
        (by rw [ensure_engine_rows_fen]; exact hstm)
        (by rw [engine_for_ensure_update]; exact hcfg)
        (by rw [ensure_engine_rows_fen, engine_for_ensure_update]; exact hbm)]
    exact ⟨_, rfl, by simp [finish_forfeit], by simp [finish_forfeit],
      by simp [finish_forfeit], by simp [finish_forfeit], by simp [finish_forfeit]⟩
  · rw [tick_eq_of_acquire env lock_now now g hacq,
      tick_body_commit env now
        { g with tick_lock := true, tick_lock_at := some lock_now } t0 hrun hpend hset hge,
      tick_commit_apply_error env now
        (preview_ms_for_game
          ({ g with tick_lock := true, tick_lock_at := some lock_now } : Game))
        (({ g with tick_lock := true, tick_lock_at := some lock_now } : Game).pending_move_uci)
        (ensure_engine_rows env { g with tick_lock := true, tick_lock_at := some lock_now })
        stm
        (by rw [ensure_engine_rows_fen]; exact hstm)
        (by rw [ensure_engine_rows_fen]; exact happ)]
    exact ⟨_, rfl, by simp [finish_forfeit], by simp [finish_forfeit],
      by simp [finish_forfeit], by simp [finish_forfeit], by simp [finish_forfeit]⟩

theorem finish_no_moves_shape (env : Env) (g : Game) (now : Nat) :
    ∀ g2, finish_no_moves env g now = some g2 →
      g2.moves = g.moves ∧ g2.ply_count = g.ply_count := by
  intro g2 h
  unfold finish_no_moves at h
  split at h
  · simp at h
  · dsimp only at h
    split at h
    · simp at h
    · split at h <;>
        (simp only [Option.some.injEq] at h; subst h; simp)

theorem tick_decide_shape (env : Env) (now : Nat) (g : Game) :
    ∀ out g2, tick_decide env now g = some (out, g2) →
      out.advanced = false ∧ g2.moves = g.moves ∧ g2.ply_count = g.ply_count := by
  intro out g2 h
  unfold tick_decide at h
  split at h
  · simp only [Option.some.injEq, Prod.mk.injEq] at h
    obtain ⟨rfl, rfl⟩ := h
    simp
  · dsimp only at h
    split at h
    · simp only [Option.some.injEq, Prod.mk.injEq] at h
      obtain ⟨rfl, rfl⟩ := h
      refine ⟨rfl, ?_, ?_⟩ <;> split <;> rfl
    · split at h
      · simp only [Option.some.injEq, Prod.mk.injEq] at h
        obtain ⟨rfl, rfl⟩ := h
        simp [finish_forfeit]
      · split at h
        · split at h
          · simp at h
          · rename_i g3 hfnm
            simp only [Option.some.injEq, Prod.mk.injEq] at h
            obtain ⟨rfl, rfl⟩ := h
            obtain ⟨hmv, hpc⟩ := finish_no_moves_shape env _ now g3 hfnm
            exact ⟨rfl, by rw [hmv], by rw [hpc]⟩
        · simp only [Option.some.injEq, Prod.mk.injEq] at h
          obtain ⟨rfl, rfl⟩ := h
          simp

theorem tick_commit_shape (env : Env) (now pms : Nat) (mu : String) (g : Game) :
    ∀ out g2, tick_commit env now pms mu g = some (out, g2) →
      (out.advanced = true →
        (∃ m, g2.moves = g.moves ++ [m]) ∧ g2.ply_count = g.ply_count + 1) ∧
      (out.advanced = false → g2.moves = g.moves ∧ g2.ply_count = g.ply_count) := by
  intro out g2 h
  unfold tick_commit at h
  split at h
  · simp only [Option.some.injEq, Prod.mk.injEq] at h
    obtain ⟨rfl, rfl⟩ := h
    exact ⟨fun hx => absurd hx (by simp), fun _ => by simp⟩
  · dsimp only at h
    split at h
    · simp only [Option.some.injEq, Prod.mk.injEq] at h
      obtain ⟨rfl, rfl⟩ := h
      exact ⟨fun hx => absurd hx (by simp), fun _ => by simp [finish_forfeit]⟩
    · split at h
      · simp only [Option.some.injEq, Prod.mk.injEq] at h
        obtain ⟨rfl, rfl⟩ := h
        exact ⟨fun hx => absurd hx (by simp), fun _ => by simp [finish_forfeit]⟩
      · split at h
        · simp at h
        · obtain ⟨hadv, hmv, hpc, hfen⟩ := tick_terminal_shape env now _ out g2 h
          constructor
          · intro _
            constructor
            · exact ⟨_, by rw [hmv]; rfl⟩
            · rw [hpc]; rfl
          · intro hx
            rw [hadv] at hx
            exact absurd hx (by simp)

theorem tick_body_shape (env : Env) (now : Nat) (g : Game) :
    ∀ out g2, tick_body env now g = some (out, g2) →
      (out.advanced = true →
        (∃ m, g2.moves = g.moves ++ [m]) ∧ g2.ply_count = g.ply_count + 1) ∧
      (out.advanced = false → g2.moves = g.moves ∧ g2.ply_count = g.ply_count) := by
  intro out g2 h
  unfold tick_body at h
  dsimp only at h
  split at h
  · simp only [Option.some.injEq, Prod.mk.injEq] at h
    obtain ⟨rfl, rfl⟩ := h
    exact ⟨fun hx => absurd hx (by simp), fun _ => by simp⟩
  · split at h
    · split at h
      · simp only [Option.some.injEq, Prod.mk.injEq] at h
        obtain ⟨rfl, rfl⟩ := h
        exact ⟨fun hx => absurd hx (by simp), fun _ => by simp⟩
      · have hres := tick_commit_shape env now _ _ _ out g2 h
        simp only [ensure_engine_rows_moves, ensure_engine_rows_ply_count] at hres
        exact hres
    · split at h
      · split at h
        · simp only [Option.some.injEq, Prod.mk.injEq] at h
          obtain ⟨rfl, rfl⟩ := h
          exact ⟨fun hx => absurd hx (by simp), fun _ => by simp⟩
        · have hres := tick_decide_shape env now _ out g2 h
          simp only [ensure_engine_rows_moves, ensure_engine_rows_ply_count] at hres
          exact ⟨fun hx => absurd (hres.1 ▸ hx) (by simp), fun _ => hres.2⟩
      · have hres := tick_decide_shape env now _ out g2 h
        simp only [ensure_engine_rows_moves, ensure_engine_rows_ply_count] at hres
        exact ⟨fun hx => absurd (hres.1 ▸ hx) (by simp), fun _ => hres.2⟩

/-- C10: tick's advanced flag is true exactly when the call committed a
move: a true outcome appends exactly one MoveRecord and increments the ply
count by one, and every false outcome (busy, not-running, preview, waiting,
human-turn, no-legal-move, bad-FEN, forfeit) leaves the move list and the
ply count unchanged. -/
theorem tick_advanced_iff_move_committed (env : Env) (lock_now now : Nat) (g : Game) :
    ∀ out g2, tick env lock_now now g = TickRes.ok out g2 →
      (out.advanced = true →
        (∃ m, g2.moves = g.moves ++ [m]) ∧ g2.ply_count = g.ply_count + 1) ∧
      (out.advanced = false → g2.moves = g.moves ∧ g2.ply_count = g.ply_count) := by
  intro out g2 h
  unfold tick at h
  split at h
  · simp only [TickRes.ok.injEq] at h
    obtain ⟨rfl, rfl⟩ := h
    exact ⟨fun hx => absurd hx (by simp), fun _ => ⟨rfl, rfl⟩⟩
  · dsimp only at h
    cases htb : tick_body env now
        { g with tick_lock := true, tick_lock_at := some lock_now } with
    | none =>
      rw [htb] at h
      simp at h
    | some p =>
      obtain ⟨out3, g3⟩ := p
      rw [htb] at h
      simp only [TickRes.ok.injEq] at h
      obtain ⟨rfl, rfl⟩ := h
      exact tick_body_shape env now
        { g with tick_lock := true, tick_lock_at := some lock_now } out3 g3 htb

/-- C3 (amended): on a resulting state that is neither checkmate nor
stalemate, the human-move path's terminal checks finish the game with
exactly the same state (hence the same termination reason) as tick's commit
path; the human path additionally checks checkmate and stalemate between
the max-plies and repetition checks, which tick's commit path never does. -/
theorem click_terminal_matches_tick_terminal (env : Env) (now : Nat) (g : Game)
    (side : Side) (b : Bool)
    (hstat : g.status ≠ GameStatus.FINISHED)
    (hins : is_insufficient_material g.fen = some b) :
    ∃ out, tick_terminal env now g =
      some (out, click_terminal env.max_plies false false side now
        (position_key_of env g.fen) g) := by
  rw [tick_terminal_eq env now g b hins]
  unfold click_terminal
  by_cases h1 : env.max_plies ≤ g.ply_count
  · exact ⟨⟨true, "Max plies draw."⟩, by simp [h1, finish_draw]⟩
  · by_cases h2 : is_threefold_repetition env g = true
    · have hk : position_key_of env g.fen ≠ "" := by
        intro hk0
        unfold is_threefold_repetition at h2
        simp [hk0] at h2
      have hcnt : 3 ≤ repetition_count g (position_key_of env g.fen) := by
        unfold is_threefold_repetition at h2
        simp only [if_neg hk, decide_eq_true_eq] at h2
        exact h2
      exact ⟨⟨true, "Háromszori ismétlés: döntetlen."⟩,
        by simp [h1, h2, hk, hcnt, finish_draw]⟩
    · have hrep : position_key_of env g.fen ≠ "" →
          ¬ (3 ≤ repetition_count g (position_key_of env g.fen)) := by
        intro hk hcnt
        apply h2
        unfold is_threefold_repetition
        simp [hk, hcnt]
      by_cases h3 : is_fifty_move g = true
      · refine ⟨⟨true, "50 lépés szabály: döntetlen."⟩, ?_⟩
        by_cases hk : position_key_of env g.fen = ""
        · simp [h1, h2, h3, hk, hstat, finish_draw]
        · simp [h1, h2, h3, hk, hrep hk, hstat, finish_draw]
      · cases b
        · refine ⟨⟨true, "Lépés végrehajtva."⟩, ?_⟩
          by_cases hk : position_key_of env g.fen = ""
          · simp [h1, h2, h3, hk, hstat, hins]
          · simp [h1, h2, h3, hk, hrep hk, hstat, hins]
        · refine ⟨⟨true, "Anyaghiány: döntetlen."⟩, ?_⟩
          by_cases hk : position_key_of env g.fen = ""
          · simp [h1, h2, h3, hk, hstat, hins, finish_draw]
          · simp [h1, h2, h3, hk, hrep hk, hstat, hins, finish_draw]

/-- C3 (counterexample): committing the fools-mate move through tick leaves
the game Running with no termination reason, while the human-move terminal
checks on the very same resulting state record CHECKMATE — the two entry
points do not run the identical terminal-condition precedence. -/
theorem click_terminal_vs_tick_counterexample :
    tick envMate 1000 1000 gPreMate =
      TickRes.ok ⟨true, "Lépés végrehajtva."⟩ tickMateResult ∧
    tickMateResult.status = GameStatus.RUNNING ∧
    tickMateResult.termination_reason = none ∧
    tickMateResult.fen = fenMate ∧
    (click_terminal envMate.max_plies true false Side.BLACK 1000
        (position_key_of envMate tickMateResult.fen) tickMateResult).termination_reason
      = some TerminationReason.CHECKMATE ∧
    (click_terminal envMate.max_plies true false Side.BLACK 1000
        (position_key_of envMate tickMateResult.fen) tickMateResult).status
      = GameStatus.FINISHED := by
  decide

/-! ## Witnesses -/

theorem tick_two_phase_witness :
    (∃ g2, tick envOk 1200 1200 gPend =
        TickRes.ok ⟨false, "Előnézet (lépés kiemelve)."⟩ g2 ∧
      g2.fen = gPend.fen ∧ g2.ply_count = gPend.ply_count ∧ g2.moves = gPend.moves ∧
      g2.pending_move_uci = gPend.pending_move_uci ∧
      g2.pending_move_set_at = gPend.pending_move_set_at ∧
      g2.status = gPend.status ∧ g2.termination_reason = gPend.termination_reason) ∧
    (∃ out g2, tick envOk 1400 1400 gPend = TickRes.ok out g2 ∧
      (∃ m, g2.moves = gPend.moves ++ [m] ∧ m.ply_index = gPend.ply_count + 1 ∧
        m.uci = gPend.pending_move_uci ∧ m.fen_after = fenE4) ∧
      g2.ply_count = gPend.ply_count + 1 ∧ g2.fen = fenE4) :=
  ⟨(tick_two_phase_preview_then_commit envOk 1200 1200 gPend 1000
      (by decide) (by decide) (by decide) (by decide)).1 (by decide),
   (tick_two_phase_preview_then_commit envOk 1400 1400 gPend 1000
      (by decide) (by decide) (by decide) (by decide)).2 (by decide)
      "w" ⟨some fenE4, some "K2", some ""⟩ "b" false
      (by decide) (by decide) (by decide) (by decide) (by decide) (by decide)⟩

theorem tick_terminal_precedence_witness :
    ∃ out g2, tick envOk 1400 1400 gPend = TickRes.ok out g2 ∧
      g2.termination_reason =
        (if envOk.max_plies ≤ gPend.ply_count + 1 then some TerminationReason.MAX_PLIES
         else if is_threefold_repetition envOk
             (applied_game gPend ⟨some fenE4, some "K2", some ""⟩ gPend.pending_move_uci
               "b" 1400 (preview_ms_for_game gPend)) then
           some TerminationReason.REPETITION
         else if is_fifty_move
             (applied_game gPend ⟨some fenE4, some "K2", some ""⟩ gPend.pending_move_uci
               "b" 1400 (preview_ms_for_game gPend)) then
           some TerminationReason.FIFTY_MOVE
         else if (false : Bool) then some TerminationReason.INSUFFICIENT
         else gPend.termination_reason) :=
  tick_commit_terminal_precedence envOk 1400 1400 gPend 1000 "w"
    ⟨some fenE4, some "K2", some ""⟩ "b" false
    (by decide) (by decide) (by decide) (by decide) (by decide) (by decide)
    (by decide) (by decide) (by decide) (by decide) (by decide)

theorem tick_no_legal_move_witness :
    ∃ g2, tick envNoMoves 50 50 gBase =
        TickRes.ok ⟨false, "Nincs legális lépés; game over."⟩ g2 ∧
      g2.status = GameStatus.FINISHED ∧
      g2.termination_reason = some TerminationReason.STALEMATE ∧
      g2.result = "1/2-1/2" ∧
      g2.termination_reason ≠ some TerminationReason.RESIGN ∧
      g2.moves = gBase.moves ∧ g2.ply_count = gBase.ply_count :=
  tick_no_legal_move_resolution envNoMoves 50 50 gBase "w" ⟨"(none)"⟩
    ⟨some fenStart, some ("K." ++ fenStart), some ""⟩
    (by decide) (by decide) (by decide) (Or.inr ⟨0, by decide, by decide⟩)
    (by decide) (by decide) (by decide) (Or.inl (by decide)) (by decide)

theorem tick_lock_protocol_witness :
    tick envOk 5000 5000 gBusy = TickRes.ok ⟨false, "Tick: foglalt (zár)."⟩ gBusy ∧
    canAcquireLock gBase 5000 = true ∧
    gBaseTicked.tick_lock = false :=
  ⟨(tick_lock_protocol envOk 5000 5000 gBusy).2.1 (by decide),
   (tick_lock_protocol envOk 5000 5000 gBase).1.mpr (Or.inl (by decide)),
   ((tick_lock_protocol envOk 5 5 gBase).2.2 (by decide)).1 outBaseTicked gBaseTicked
     (by decide)⟩

theorem tick_mover_error_witness :
    ∃ g2, tick envErrSelect 60 60 gBase =
        TickRes.ok ⟨false, "Engine hiba; forfeit."⟩ g2 ∧
      g2.status = GameStatus.FINISHED ∧
      g2.termination_reason = some TerminationReason.RESIGN ∧
      g2.result = (if sideOf "w" = Side.BLACK then "1-0" else "0-1") ∧
      g2.moves = gBase.moves ∧ g2.ply_count = gBase.ply_count :=
  tick_mover_error_forfeit envErrSelect 60 60 gBase "w" (by decide) (by decide)
    (by decide)
    (Or.inl ⟨by decide, Or.inr ⟨0, by decide, by decide⟩, by decide, by decide⟩)

theorem insufficient_material_witness :
    is_insufficient_material "8/8/8/8/8/8/8/KB5k w - - 0 1" = some true :=
  (insufficient_material_characterization "8/8/8/8/8/8/8/KB5k w - - 0 1"
      "8/8/8/8/8/8/8/KB5k" ["w", "-", "-", "0", "1"] (by decide)).1.mpr
    (Or.inr (Or.inl ⟨'B', by decide, by decide⟩))

theorem depth_from_strength_witness :
    depth_from_strength ⟨EngineType.PYCHESS, StrengthMode.SKILL, 5, 150⟩ ≤
      depth_from_strength ⟨EngineType.PYCHESS, StrengthMode.SKILL, 12, 150⟩ ∧
    depth_from_strength ⟨EngineType.PYCHESS, StrengthMode.SKILL, 5, 150⟩ ≤
      depth_from_strength ⟨EngineType.PYCHESS, StrengthMode.SKILL, 5, 1200⟩ :=
  ⟨(depth_from_strength_bounds_and_monotone
      ⟨EngineType.PYCHESS, StrengthMode.SKILL, 5, 150⟩).2.2.2.1
      ⟨EngineType.PYCHESS, StrengthMode.SKILL, 12, 150⟩ rfl rfl (by decide),
   (depth_from_strength_bounds_and_monotone
      ⟨EngineType.PYCHESS, StrengthMode.SKILL, 5, 150⟩).2.2.2.2
      ⟨EngineType.PYCHESS, StrengthMode.SKILL, 5, 1200⟩ rfl rfl (by decide)⟩

theorem tick_advanced_witness :
    ((∃ m, gPendTicked.moves = gPend.moves ++ [m]) ∧
      gPendTicked.ply_count = gPend.ply_count + 1) ∧
    (gBaseTicked.moves = gBase.moves ∧ gBaseTicked.ply_count = gBase.ply_count) :=
  ⟨(tick_advanced_iff_move_committed envOk 1400 1400 gPend
      outPendTicked gPendTicked (by decide)).1 (by decide),
   (tick_advanced_iff_move_committed envOk 5 5 gBase
      outBaseTicked gBaseTicked (by decide)).2 (by decide)⟩

theorem click_terminal_matches_tick_witness :
    ∃ out, tick_terminal envMate 7 tickMateResult =
      some (out, click_terminal envMate.max_plies false false Side.WHITE 7
        (position_key_of envMate tickMateResult.fen) tickMateResult) :=
  click_terminal_matches_tick_terminal envMate 7 tickMateResult Side.WHITE false
    (by decide) (by decide)

end AutoChess
